import Mathlib

/-!
Shallow embedding of the offline-cache / push-notification core of the
monadpulse calendar client, together with theorems settling the spec claims.

Sources embedded:
- the notification service (preference reconciler + subscription manager),
  current revision, with the divergent migration branch of the earlier
  revision kept alongside for comparison;
- the background cache worker (install / activate / fetch handlers).

JavaScript conventions are reproduced explicitly:
- a possibly-absent field is an `Option`;  `x !== false` on an optional
  boolean is `x.getD true`;  an or-empty-string fallback on an optional
  string is `x.getD ""`;
- a thrown exception is `Except.error`;  a caught exception is a `match` on
  the `Except`;
- network traffic actually issued by a call is an explicit trace list.
-/

namespace MonadPulse

/-- JS `x !== false` on a possibly-absent boolean field: absent and `true`
both count as `true`. -/
def neFalse (x : Option Bool) : Bool := x.getD true

/-- Raw JSON record returned by `GET /api/users/me/preferences`: every field
may be absent.  `notify1hBefore` / `notify10mBefore` are the legacy
single-pair reminder fields. -/
structure RawPrefs where
  email : Option String := none
  notifyEmail : Option Bool := none
  notifyBrowser : Option Bool := none
  notifyAllEvents : Option Bool := none
  email1hBefore : Option Bool := none
  email10mBefore : Option Bool := none
  browser1hBefore : Option Bool := none
  browser10mBefore : Option Bool := none
  notifyNewEvents : Option Bool := none
  notify1hBefore : Option Bool := none
  notify10mBefore : Option Bool := none
deriving DecidableEq, Repr

/-- Canonical `UserPreferences` record of the current revision. -/
structure UserPreferences where
  email : String
  notifyEmail : Bool
  notifyBrowser : Bool
  notifyAllEvents : Bool
  email1hBefore : Bool
  email10mBefore : Bool
  browser1hBefore : Bool
  browser10mBefore : Bool
  notifyNewEvents : Bool
deriving DecidableEq, Repr

/-- `DEFAULT_PREFERENCES` constant of the notification service. -/
def DEFAULT_PREFERENCES : UserPreferences :=
  { email := ""
    notifyEmail := true
    notifyBrowser := true
    notifyAllEvents := true
    email1hBefore := true
    email10mBefore := true
    browser1hBefore := true
    browser10mBefore := true
    notifyNewEvents := true }

/-- The network outcome of one `api.get` call: `Except.error` models a
thrown/rejected request, `Option` models a `null`/`undefined` payload. -/
abbrev FetchResult (α : Type) := Except Unit (Option α)

/-- notificationService.getPreferences, current revision.  The migration
branch fires when the key `notify1hBefore` is present in the response; note
that this branch reads the channel-specific fields of `oldPrefs`
(`email1hBefore`, ...), not the legacy pair.  Otherwise the response is
spread over `DEFAULT_PREFERENCES`; a transport error or a null response
yields the defaults. -/
def getPreferences (fetch : FetchResult RawPrefs) : UserPreferences :=
  match fetch with
  | .error _ =>
      { email := ""
        notifyEmail := true
        notifyBrowser := true
        notifyAllEvents := true
        email1hBefore := true
        email10mBefore := true
        browser1hBefore := true
        browser10mBefore := true
        notifyNewEvents := true }
  | .ok none => DEFAULT_PREFERENCES
  | .ok (some r) =>
      if r.notify1hBefore.isSome then
        { email := r.email.getD ""
          notifyEmail := neFalse r.notifyEmail
          notifyBrowser := neFalse r.notifyBrowser
          notifyAllEvents := neFalse r.notifyAllEvents
          email1hBefore := neFalse r.email1hBefore
          email10mBefore := neFalse r.email10mBefore
          browser1hBefore := neFalse r.browser1hBefore
          browser10mBefore := neFalse r.browser10mBefore
          notifyNewEvents := neFalse r.notifyNewEvents }
      else
        { email := r.email.getD DEFAULT_PREFERENCES.email
          notifyEmail := r.notifyEmail.getD DEFAULT_PREFERENCES.notifyEmail
          notifyBrowser := r.notifyBrowser.getD DEFAULT_PREFERENCES.notifyBrowser
          notifyAllEvents := r.notifyAllEvents.getD DEFAULT_PREFERENCES.notifyAllEvents
          email1hBefore := r.email1hBefore.getD DEFAULT_PREFERENCES.email1hBefore
          email10mBefore := r.email10mBefore.getD DEFAULT_PREFERENCES.email10mBefore
          browser1hBefore := r.browser1hBefore.getD DEFAULT_PREFERENCES.browser1hBefore
          browser10mBefore := r.browser10mBefore.getD DEFAULT_PREFERENCES.browser10mBefore
          notifyNewEvents := r.notifyNewEvents.getD DEFAULT_PREFERENCES.notifyNewEvents }

/-- Canonical record of the earlier revision (no `notifyNewEvents` field). -/
structure UserPreferencesV1 where
  email : String
  notifyEmail : Bool
  notifyBrowser : Bool
  notifyAllEvents : Bool
  email1hBefore : Bool
  email10mBefore : Bool
  browser1hBefore : Bool
  browser10mBefore : Bool
deriving DecidableEq, Repr

/-- Migration branch of getPreferences in the earlier revision of the
notification service: the legacy `notify1hBefore` / `notify10mBefore` values
are remapped onto both the email and the browser channel. -/
def getPreferencesV1migrate (r : RawPrefs) : UserPreferencesV1 :=
  { email := r.email.getD ""
    notifyEmail := neFalse r.notifyEmail
    notifyBrowser := neFalse r.notifyBrowser
    notifyAllEvents := neFalse r.notifyAllEvents
    email1hBefore := neFalse r.notify1hBefore
    email10mBefore := neFalse r.notify10mBefore
    browser1hBefore := neFalse r.notify1hBefore
    browser10mBefore := neFalse r.notify10mBefore }

/-- One element of the array returned by
`GET /api/users/me/event-preferences`; the service keeps an element only if
`event_type` is a string and `is_enabled` a boolean, so anything else is
`malformed`. -/
inductive RawEventPref where
  | malformed
  | entry (event_type : String) (is_enabled : Bool)
deriving DecidableEq, Repr

/-- Derived per-type preference record. -/
structure EventPreference where
  event_type : String
  is_enabled : Bool
deriving DecidableEq, Repr

/-- Lookup in the `prefMap` built by `Map.set` over the well-formed entries:
the last entry for a type wins. -/
def prefMapGet (l : List RawEventPref) (t : String) : Option Bool :=
  l.foldl
    (fun acc p =>
      match p with
      | .malformed => acc
      | .entry ty b => if ty = t then some b else acc)
    none

/-- notificationService.getEventPreferences, current revision.
`eventFetch` is the outcome of `GET /api/users/me/event-preferences`:
`Except.error` is a thrown request (routed to the catch branch), `some l`
an array payload, `none` a non-array payload (coerced to `[]`).
`prefsFetch` feeds the inner `getPreferences` call, which never throws. -/
def getEventPreferences (availableEventTypes : List String)
    (prefsFetch : FetchResult RawPrefs)
    (eventFetch : FetchResult (List RawEventPref)) : List EventPreference :=
  let prefs := getPreferences prefsFetch
  if availableEventTypes.isEmpty then []
  else
    match eventFetch with
    | .error _ =>
        availableEventTypes.map fun t => { event_type := t, is_enabled := false }
    | .ok resp =>
        let existingPrefs := resp.getD []
        let isNewUser := existingPrefs.length = 0
        availableEventTypes.map fun t =>
          { event_type := t
            is_enabled :=
              if isNewUser then prefs.notifyAllEvents
              else
                match prefMapGet existingPrefs t with
                | some b => b
                | none => prefs.notifyAllEvents }

/-- Partial update record passed to `updatePreferences` (a JS
`Partial<UserPreferences>`). -/
structure PrefUpdates where
  email : Option String := none
  notifyEmail : Option Bool := none
  notifyBrowser : Option Bool := none
  notifyAllEvents : Option Bool := none
  email1hBefore : Option Bool := none
  email10mBefore : Option Bool := none
  browser1hBefore : Option Bool := none
  browser10mBefore : Option Bool := none
  notifyNewEvents : Option Bool := none
deriving DecidableEq, Repr

/-- Snake-case body of the `PUT /api/users/me/preferences` request.  It is
built from the fully-populated merged record, so every field is defined and
the remove-undefined loop of the source deletes nothing. -/
structure SnakePrefData where
  email : String
  notify_email : Bool
  notify_browser : Bool
  notify_all_events : Bool
  email_1h_before : Bool
  email_10m_before : Bool
  browser_1h_before : Bool
  browser_10m_before : Bool
  notify_new_events : Bool
deriving DecidableEq, Repr

/-- Raw JSON record returned by the server for the PUT.  The source reads
both the snake-case fields (for the camelCase conversion) and the camelCase
`notifyEmail` field (in the post-PUT email check), so both spellings are
kept. -/
structure ServerPrefResult where
  email : Option String := none
  notifyEmail : Option Bool := none
  notify_email : Option Bool := none
  notify_browser : Option Bool := none
  notify_all_events : Option Bool := none
  email_1h_before : Option Bool := none
  email_10m_before : Option Bool := none
  browser_1h_before : Option Bool := none
  browser_10m_before : Option Bool := none
  notify_new_events : Option Bool := none
deriving DecidableEq, Repr

/-- One network request issued by the notification service. -/
inductive NetReq where
  | getPrefs
  | putPrefs (data : SnakePrefData)
  | getEventPrefs
  | postEventPref (eventType : String) (isEnabled : Bool)
deriving DecidableEq, Repr

/-- Merge step of `updatePreferences`: `{ ...currentPrefs, ...updates }`,
where a field of `updates` overrides the current value only when defined. -/
def mergePrefs (current : UserPreferences) (updates : PrefUpdates) : UserPreferences :=
  { email := updates.email.getD current.email
    notifyEmail := updates.notifyEmail.getD current.notifyEmail
    notifyBrowser := updates.notifyBrowser.getD current.notifyBrowser
    notifyAllEvents := updates.notifyAllEvents.getD current.notifyAllEvents
    email1hBefore := updates.email1hBefore.getD current.email1hBefore
    email10mBefore := updates.email10mBefore.getD current.email10mBefore
    browser1hBefore := updates.browser1hBefore.getD current.browser1hBefore
    browser10mBefore := updates.browser10mBefore.getD current.browser10mBefore
    notifyNewEvents := updates.notifyNewEvents.getD current.notifyNewEvents }

/-- Snake-case request body built from the merged record. -/
def toSnakeData (p : UserPreferences) : SnakePrefData :=
  { email := p.email
    notify_email := p.notifyEmail
    notify_browser := p.notifyBrowser
    notify_all_events := p.notifyAllEvents
    email_1h_before := p.email1hBefore
    email_10m_before := p.email10mBefore
    browser_1h_before := p.browser1hBefore
    browser_10m_before := p.browser10mBefore
    notify_new_events := p.notifyNewEvents }

/-- Post-PUT check of `updatePreferences`:
`if (result.notifyEmail && !result.email) throw ...` — JS truthiness on the
camelCase field of the server response and emptiness of its email. -/
def emailCheckFires (r : ServerPrefResult) : Bool :=
  r.notifyEmail.getD false && (r.email.getD "" == "")

/-- Snake-to-camel conversion of the server response performed on the
success path of `updatePreferences`. -/
def resultToCamel (r : ServerPrefResult) : UserPreferences :=
  { email := r.email.getD ""
    notifyEmail := neFalse r.notify_email
    notifyBrowser := neFalse r.notify_browser
    notifyAllEvents := neFalse r.notify_all_events
    email1hBefore := neFalse r.email_1h_before
    email10mBefore := neFalse r.email_10m_before
    browser1hBefore := neFalse r.browser_1h_before
    browser10mBefore := neFalse r.browser_10m_before
    notifyNewEvents := neFalse r.notify_new_events }

/-- notificationService.updatePreferences, current revision.  Returns the
call outcome together with the trace of requests actually issued.  The order
of the source is kept: read current preferences (GET, never throws), merge,
build the snake-case body, issue the PUT, and only then check the response
for `notifyEmail && !email`; any thrown error is re-thrown. -/
def updatePreferences (updates : PrefUpdates)
    (prefsFetch : FetchResult RawPrefs)
    (putResult : Except Unit ServerPrefResult) :
    Except Unit UserPreferences × List NetReq :=
  let currentPrefs := getPreferences prefsFetch
  let mergedPrefs := mergePrefs currentPrefs updates
  let data := toSnakeData mergedPrefs
  let trace := [NetReq.getPrefs, NetReq.putPrefs data]
  match putResult with
  | .error _ => (.error (), trace)
  | .ok result =>
      if emailCheckFires result then (.error (), trace)
      else (.ok (resultToCamel result), trace)

/-- notificationService.isValidEmail: the test
`/^[^\s@]+@[^\s@]+\.[^\s@]+$/.test(String(email).toLowerCase())`, guarded by
`if (!email) return false`.  A string matches the pattern exactly when it
splits as `a@b` with `a` nonempty and whitespace-free, `b` whitespace-free,
and `b` containing a dot that is neither its first nor its last character
(so both `[^\s@]+` sides of the literal dot are nonempty). -/
def splitOnChar (sep : Char) : List Char → List (List Char)
  | [] => [[]]
  | c :: cs =>
    match splitOnChar sep cs with
    | [] => [[]]
    | h :: t => if c = sep then [] :: h :: t else (c :: h) :: t

/-- notificationService.isValidEmail: the test
`/^[^\s@]+@[^\s@]+\.[^\s@]+$/.test(String(email).toLowerCase())`, guarded by
`if (!email) return false`.  A string matches the pattern exactly when it
splits as `a@b` (a single `@`, handled by `splitOnChar` producing two
parts) with `a` nonempty and whitespace-free, `b` whitespace-free, and `b`
containing a dot that is neither its first nor its last character (so both
`[^\s@]+` sides of the literal dot are nonempty).  Lowercasing is applied
character-wise as in the source; it does not affect any character class of
the pattern. -/
def isValidEmail (email : String) : Bool :=
  if email = "" then false
  else
    let chars := email.data.map Char.toLower
    match splitOnChar '@' chars with
    | [a, b] =>
        !a.isEmpty && a.all (fun c => !c.isWhitespace) &&
        b.all (fun c => !c.isWhitespace) &&
        ((b.drop 1).dropLast.contains '.')
    | _ => false

/-- Host push subscription: endpoint plus the `p256dh`/`auth` key pair. -/
structure PushSubscription where
  endpoint : String
  p256dh : String
  auth : String
deriving DecidableEq, Repr

/-- Result of one run of the retry loop: outcome, number of
`pushManager.subscribe` attempts performed, and number of inter-attempt
sleeps (each of the fixed `delay` milliseconds). -/
structure AttemptStats where
  outcome : Except String PushSubscription
  attemptsMade : Nat
  delays : Nat
deriving Repr

/-- Body of the `while (attempts < maxAttempts)` loop of
`attemptPushSubscription`.  `subscribe i` is the host outcome of attempt
`i + 1`; `attemptsMade` counts attempts already performed, `remaining` is
`maxAttempts - attemptsMade`.  A success returns at once; a failure records
the error and, when further attempts remain, sleeps once before retrying. -/
def attemptLoop (subscribe : Nat → Except String PushSubscription) :
    Nat → Nat → Option String → Nat → AttemptStats
  | 0, attemptsMade, lastError, delays =>
      { outcome := .error
          (lastError.getD "Failed to subscribe to push notifications after multiple attempts")
        attemptsMade := attemptsMade
        delays := delays }
  | r + 1, attemptsMade, _lastError, delays =>
      match subscribe attemptsMade with
      | .ok s => { outcome := .ok s, attemptsMade := attemptsMade + 1, delays := delays }
      | .error e =>
          if r > 0 then attemptLoop subscribe r (attemptsMade + 1) (some e) (delays + 1)
          else attemptLoop subscribe r (attemptsMade + 1) (some e) delays

/-- notificationService.attemptPushSubscription (earlier revision):
bounded retry loop around `registration.pushManager.subscribe`, giving up
after `maxAttempts` attempts and re-throwing the error of the last one. -/
def attemptPushSubscription (subscribe : Nat → Except String PushSubscription)
    (maxAttempts : Nat) : AttemptStats :=
  attemptLoop subscribe maxAttempts 0 none 0

/-- Value of `Notification.permission` / `Notification.requestPermission`. -/
inductive Permission where
  | granted
  | denied
  | defaultPerm
deriving DecidableEq, Repr

/-- Host-side environment of one `subscribeToPushNotifications` call: the
capability probes, the outcome of each host or network primitive the call
consumes.  The current subscription held by the push service is threaded
separately as state. -/
structure PushHostEnv where
  hasServiceWorker : Bool
  hasPushManager : Bool
  hasNotificationApi : Bool
  permissionPrompt : Except Unit Permission
  swReadyOk : Bool
  pushManagerAvailable : Bool
  getSubscriptionFails : Bool
  vapidKeyResponse : Option String
  vapidConvertOk : Bool
  subscribeOutcome : Except String PushSubscription
  isBrave : Bool
  serverPostOk : Bool

/-- notificationService.requestNotificationPermission: `denied` when the
platform lacks support or the prompt throws, otherwise the prompt result. -/
def requestNotificationPermission (env : PushHostEnv) : Permission :=
  if !(env.hasServiceWorker && env.hasPushManager && env.hasNotificationApi) then .denied
  else
    match env.permissionPrompt with
    | .ok p => p
    | .error _ => .denied

/-- Result of one `subscribeToPushNotifications` call: the outcome, the
subscription now held by the host push service, the number of host-level
`pushManager.subscribe` calls issued, and whether the subscription was
successfully persisted to the server (`false` both when the POST failed and
when the missing-email throw aborted the block — either way the catch
swallows the failure). -/
structure SubscribeResult where
  outcome : Except String PushSubscription
  hostSub : Option PushSubscription
  subscribeCalls : Nat
  serverSynced : Bool

/-- Helper for `strIncludes`: does `pat` occur as a contiguous run of `l`? -/
def hasSub (pat : List Char) : List Char → Bool
  | [] => pat.isEmpty
  | c :: cs => pat.isPrefixOf (c :: cs) || hasSub pat cs

/-- JS `String.prototype.includes`. -/
def strIncludes (s pat : String) : Bool := hasSub pat.data s.data

/-- JS `String.prototype.startsWith`. -/
def strStartsWith (s pat : String) : Bool := pat.data.isPrefixOf s.data

/-- notificationService.subscribeToPushNotifications, current revision.
`st` is the subscription currently held by the host push service
(`pushManager.getSubscription` reads it, a successful
`pushManager.subscribe` replaces it).  The control flow of the source is
kept: capability checks, permission, registration, existing-subscription
check (early idempotent return), VAPID fetch and conversion, one host
subscribe wrapped into a generic error on failure, then the server POST
whose whole block — including the missing-email throw — is caught and
discarded, returning the local subscription regardless.  The outer catch
re-throws, rewording only a Brave push-service error. -/
def subscribeToPushNotifications (env : PushHostEnv) (st : Option PushSubscription)
    (userEmail : String) : SubscribeResult :=
  let rethrow : Nat → String → SubscribeResult := fun calls msg =>
    if env.isBrave && strIncludes msg "push service error" then
      { outcome := .error "Brave blocked push notification subscription. Please disable Shields for this site and try again."
        hostSub := st, subscribeCalls := calls, serverSynced := false }
    else { outcome := .error msg, hostSub := st, subscribeCalls := calls, serverSynced := false }
  if !env.hasServiceWorker then
    rethrow 0 "Service workers are not supported in this browser"
  else if !env.hasPushManager then
    rethrow 0 "Push notifications are not supported in this browser"
  else if requestNotificationPermission env ≠ .granted then
    rethrow 0 "Notification permission not granted"
  else if !env.swReadyOk then
    rethrow 0 "Failed to initialize service worker"
  else if !env.pushManagerAvailable then
    rethrow 0 "PushManager not available in service worker"
  else
    match (if env.getSubscriptionFails then none else st) with
    | some s => { outcome := .ok s, hostSub := st, subscribeCalls := 0, serverSynced := false }
    | none =>
        match env.vapidKeyResponse with
        | none => rethrow 0 "Failed to get VAPID public key"
        | some _ =>
            if !env.vapidConvertOk then
              rethrow 0 "Invalid VAPID public key format"
            else
              match env.subscribeOutcome with
              | .error _ =>
                  rethrow 1 ("Failed to subscribe to push notifications. " ++
                    (if env.isBrave then "Please check Brave browser settings and try again."
                     else "Please check browser permissions."))
              | .ok s =>
                  { outcome := .ok s, hostSub := some s, subscribeCalls := 1
                    serverSynced := userEmail != "" && env.serverPostOk }

/-! Background cache worker (public/service-worker.js). -/

/-- Cache version tag baked in at build time. -/
def CACHE_NAME : String := "calendar-app-v1"

/-- Fixed manifest of shell assets cached at install. -/
def CACHE_URLS : List String :=
  ["/", "/index.html", "/manifest.json",
   "/public/icons/calendar-192x192.png", "/public/icons/calendar-512x512.png",
   "/public/icons/icon-192x192.png", "/public/icons/icon-512x512.png"]

/-- Stored or live HTTP response: status, response type
(`"basic"` / `"opaque"` / ...), body. -/
structure SWResponse where
  status : Nat
  rtype : String
  body : String
deriving DecidableEq, Repr

/-- One named cache: request URL keyed entries. -/
abbrev SWCache := List (String × SWResponse)

/-- The cache storage: named cache generations. -/
abbrev CacheStorage := List (String × SWCache)

/-- `caches.open name`: creates the named cache when absent. -/
def cachesOpen (store : CacheStorage) (name : String) : CacheStorage :=
  if store.any (fun c => c.1 = name) then store else store ++ [(name, [])]

/-- `cache.put` for one entry: overwrites any entry with the same URL. -/
def cachePut (cache : SWCache) (url : String) (r : SWResponse) : SWCache :=
  cache.filter (fun e => e.1 ≠ url) ++ [(url, r)]

/-- `cache.addAll` fetch phase: every URL is fetched; the batch rejects if
any fetch rejects or yields a non-ok (outside 200–299) response, in which
case nothing at all is committed (the Cache API batch semantics). -/
def addAllFetch (fetchFn : String → Except Unit SWResponse) :
    List String → Except Unit (List (String × SWResponse))
  | [] => .ok []
  | u :: us =>
      match fetchFn u with
      | .error _ => .error ()
      | .ok r =>
          if 200 ≤ r.status ∧ r.status ≤ 299 then
            match addAllFetch fetchFn us with
            | .error _ => .error ()
            | .ok rest => .ok ((u, r) :: rest)
          else .error ()

/-- Writes a batch of entries into the named cache, leaving other
generations untouched. -/
def storePutAll (store : CacheStorage) (name : String)
    (entries : List (String × SWResponse)) : CacheStorage :=
  store.map fun c =>
    if c.1 = name then (c.1, entries.foldl (fun acc e => cachePut acc e.1 e.2) c.2) else c

/-- Install handler: opens the versioned cache, runs
`cache.addAll(CACHE_URLS)`, and swallows any error in a final `.catch`, so
the `waitUntil` promise — the second component, `true` when the install
transition completes — is always fulfilled. -/
def installHandler (store : CacheStorage) (fetchFn : String → Except Unit SWResponse) :
    CacheStorage × Bool :=
  let opened := cachesOpen store CACHE_NAME
  match addAllFetch fetchFn CACHE_URLS with
  | .ok entries => (storePutAll opened CACHE_NAME entries, true)
  | .error _ => (opened, true)

/-- Activate handler, cache-cleanup part: every cache generation whose name
differs from `CACHE_NAME` is deleted.  (The handler then claims the open
clients and posts `SERVICE_WORKER_READY` to each; that part touches no
cache state.) -/
def activateHandler (store : CacheStorage) : CacheStorage :=
  store.filter fun c => c.1 = CACHE_NAME

/-- Intercepted request. -/
structure SWRequest where
  method : String
  url : String
deriving DecidableEq, Repr

/-- Outcome of `fetch(event.request)`: a resolved response or a network
rejection. -/
inductive NetFetch where
  | resolved (r : SWResponse)
  | rejected
deriving DecidableEq, Repr

/-- Environment of one fetch-handler dispatch: the network outcome for the
request, `caches.match(event.request)`, and `caches.match("/offline.html")`
(each `none` when no cached entry matches). -/
structure FetchEnv where
  net : NetFetch
  cacheMatch : Option SWResponse
  offlineMatch : Option SWResponse
deriving DecidableEq, Repr

/-- What the fetch handler does with the request: pass it through untouched
(no `respondWith`), respond with a value (`none` models `respondWith`
receiving `undefined` from a missed `caches.match`), or fail the request
(the respondWith chain rejected). -/
inductive FetchOutcome where
  | passthrough
  | respond (r : Option SWResponse)
  | failed
deriving DecidableEq, Repr

/-- Fetch handler: non-GET and chrome-extension requests pass through; URLs
containing `/api/` get the network-first branch (status-200 responses
returned live, any other resolved status answered from the cache match, a
network rejection answered with the offline page); all other URLs get the
cache-first branch, storing a copy of cacheable (status 200, `"basic"`)
network responses.  The second component lists the cache writes
performed. -/
def fetchHandler (req : SWRequest) (env : FetchEnv) :
    FetchOutcome × List (String × SWResponse) :=
  if req.method ≠ "GET" || strStartsWith req.url "chrome-extension://" then
    (.passthrough, [])
  else if strIncludes req.url "/api/" then
    match env.net with
    | .resolved r =>
        if r.status = 200 then (.respond (some r), [])
        else (.respond env.cacheMatch, [])
    | .rejected => (.respond env.offlineMatch, [])
  else
    match env.cacheMatch with
    | some c => (.respond (some c), [])
    | none =>
        match env.net with
        | .resolved r =>
            if r.status ≠ 200 || r.rtype ≠ "basic" then (.respond (some r), [])
            else (.respond (some r), [(req.url, r)])
        | .rejected => (.failed, [])

/-! Theorems settling the claims. -/

/-- Claim C1: the claim says that for a raw record carrying only the legacy
reminder fields, `getPreferences` maps the legacy values onto both channels
(so `{notify1hBefore: false, notify10mBefore: true}` yields
`email1hBefore = browser1hBefore = false` and
`email10mBefore = browser10mBefore = true`).  The migration branch of the
current revision instead reads the channel-specific fields of the old
record, which are absent, so every timing flag defaults to `true` and the
legacy `false` is lost — while the migration branch of the earlier
revision behaves exactly as the claim states.  This theorem evaluates both revisions
at the failing input. -/
theorem getPreferences_migration_ignores_legacy_values :
    (getPreferences (.ok (some { notify1hBefore := some false, notify10mBefore := some true }))
      = { email := "", notifyEmail := true, notifyBrowser := true, notifyAllEvents := true,
          email1hBefore := true, email10mBefore := true, browser1hBefore := true,
          browser10mBefore := true, notifyNewEvents := true })
    ∧ (getPreferences (.ok (some { notify1hBefore := some false, notify10mBefore := some true }))).email1hBefore ≠ false
    ∧ (getPreferences (.ok (some { notify1hBefore := some false, notify10mBefore := some true }))).browser1hBefore ≠ false
    ∧ (getPreferencesV1migrate { notify1hBefore := some false, notify10mBefore := some true }
      = { email := "", notifyEmail := true, notifyBrowser := true, notifyAllEvents := true,
          email1hBefore := false, email10mBefore := true, browser1hBefore := false,
          browser10mBefore := true }) := by
  decide

/-- Claim C2, counterexample: with an empty stored per-type set and the
global `notifyAllEvents` flag `false`, the current `getEventPreferences`
returns `is_enabled = false`, refuting the claim that every derived record
is enabled regardless of the flag. -/
theorem getEventPreferences_newUser_cex :
    getEventPreferences ["Standup"] (.ok (some { notifyAllEvents := some false })) (.ok (some []))
      = [{ event_type := "Standup", is_enabled := false }]
    ∧ getEventPreferences ["Standup"] (.ok (some { notifyAllEvents := some false })) (.ok (some []))
      ≠ [{ event_type := "Standup", is_enabled := true }] := by
  decide

/-- Claim C2, amended: with an empty stored per-type preference set, every
returned `EventPreference` has `is_enabled` equal to the current
`notifyAllEvents` flag of the reconciled preferences (not unconditionally
`true`). -/
theorem getEventPreferences_newUser_follows_global_flag :
    ∀ (types : List String) (prefsFetch : FetchResult RawPrefs),
      getEventPreferences types prefsFetch (.ok (some [])) =
        types.map fun t =>
          { event_type := t, is_enabled := (getPreferences prefsFetch).notifyAllEvents } := by
  intro types prefsFetch
  cases types with
  | nil => rfl
  | cons h t => rfl

/-- Claim C10, counterexample: when the user-preferences fetch fails but the
event-preferences fetch succeeds with an empty set, `getEventPreferences`
substitutes the default record (all enabled) rather than the disabled
fallback, refuting the claim for the user-preferences half of its
disjunction. -/
theorem getEventPreferences_prefsError_cex :
    getEventPreferences ["Standup"] (.error ()) (.ok (some []))
      = [{ event_type := "Standup", is_enabled := true }]
    ∧ getEventPreferences ["Standup"] (.error ()) (.ok (some []))
      ≠ [{ event_type := "Standup", is_enabled := false }] := by
  decide

/-- Claim C10, amended: when fetching the stored event-type preferences
fails, `getEventPreferences` does not throw and returns one record per
candidate type with `is_enabled = false`; a failure of the user-preferences
fetch is absorbed inside `getPreferences` (which falls back to the
all-defaults record) and never reaches this disabled fallback. -/
theorem getEventPreferences_disabled_on_eventFetch_error :
    ∀ (types : List String) (prefsFetch : FetchResult RawPrefs),
      getEventPreferences types prefsFetch (.error ()) =
        types.map fun t => { event_type := t, is_enabled := false } := by
  intro types prefsFetch
  cases types with
  | nil => rfl
  | cons h t => rfl

/-- Claim C4, counterexample: persisting `{notifyEmail: true, email: ""}`
(an empty, hence invalid, address) is not rejected before network
submission: `updatePreferences` issues the PUT — the request trace contains
it — and, when the server answers with a snake-case record, the call even
resolves successfully, because the post-PUT check reads the camelCase
`notifyEmail` field of the response. -/
theorem updatePreferences_no_prevalidation_cex :
    isValidEmail "" = false
    ∧ (updatePreferences { email := some "", notifyEmail := some true } (.ok none) (.ok {})).2
        = [NetReq.getPrefs,
           NetReq.putPrefs
             { email := "", notify_email := true, notify_browser := true,
               notify_all_events := true, email_1h_before := true, email_10m_before := true,
               browser_1h_before := true, browser_10m_before := true,
               notify_new_events := true }]
    ∧ NetReq.putPrefs
        { email := "", notify_email := true, notify_browser := true,
          notify_all_events := true, email_1h_before := true, email_10m_before := true,
          browser_1h_before := true, browser_10m_before := true, notify_new_events := true }
        ∈ (updatePreferences { email := some "", notifyEmail := some true } (.ok none) (.ok {})).2
    ∧ (updatePreferences { email := some "", notifyEmail := some true } (.ok none) (.ok {})).1
        = .ok (resultToCamel {}) :=
  ⟨by decide, by decide, by decide, rfl⟩

/-- Claim C4, amended: `updatePreferences` performs no validation before the
network write: for every update record it issues exactly one GET (current
preferences) followed by one PUT of the merged record, and it rejects after
the fact exactly when the PUT itself throws or the response record sent
back by the server
has a truthy camelCase `notifyEmail` together with an empty or absent
`email`. -/
theorem updatePreferences_validates_after_put :
    ∀ (u : PrefUpdates) (f : FetchResult RawPrefs) (p : Except Unit ServerPrefResult),
      (updatePreferences u f p).2 =
        [NetReq.getPrefs, NetReq.putPrefs (toSnakeData (mergePrefs (getPreferences f) u))]
      ∧ ((updatePreferences u f p).1 = .error () ↔
          p = .error () ∨ ∃ r, p = .ok r ∧ emailCheckFires r = true) := by
  intro u f p
  cases p with
  | error e =>
      refine ⟨rfl, ?_⟩
      simp [updatePreferences]
  | ok r =>
      by_cases h : emailCheckFires r = true
      · exact ⟨by simp [updatePreferences, h], by simp [updatePreferences, h]⟩
      · exact ⟨by simp [updatePreferences, h], by simp [updatePreferences, h]⟩

/-- Claim C4, witness for the amended theorem at a concrete input. -/
theorem updatePreferences_validates_after_put_witness :
    (updatePreferences { email := some "", notifyEmail := some true } (.ok none) (.error ())).2
      = [NetReq.getPrefs,
         NetReq.putPrefs (toSnakeData (mergePrefs (getPreferences (.ok none))
           { email := some "", notifyEmail := some true }))] :=
  (updatePreferences_validates_after_put
    { email := some "", notifyEmail := some true } (.ok none) (.error ())).1

/-- All-failure run of the retry loop: when every remaining attempt fails,
the loop performs all of them, sleeps between consecutive attempts, and
surfaces the error of the last one. -/
theorem attemptLoop_all_fail (subscribe : Nat → Except String PushSubscription)
    (errs : Nat → String) :
    ∀ (r made : Nat) (le : Option String) (d : Nat),
      (∀ i, i ≤ r → subscribe (made + i) = .error (errs (made + i))) →
      attemptLoop subscribe (r + 1) made le d =
        { outcome := .error (errs (made + r)), attemptsMade := made + (r + 1), delays := d + r } := by
  intro r
  induction r with
  | zero =>
      intro made le d hfail
      have hs : subscribe made = .error (errs made) := by simpa using hfail 0 (by omega)
      simp [attemptLoop, hs]
  | succ k ih =>
      intro made le d hfail
      have hs : subscribe made = .error (errs made) := by simpa using hfail 0 (by omega)
      have ih' := ih (made + 1) (some (errs made)) (d + 1) (fun i hi => by
        have := hfail (i + 1) (by omega)
        simpa [show made + (i + 1) = made + 1 + i by omega] using this)
      have step : attemptLoop subscribe (k + 1 + 1) made le d
          = attemptLoop subscribe (k + 1) (made + 1) (some (errs made)) (d + 1) := by
        conv_lhs => rw [attemptLoop]
        simp [hs]
      rw [step, ih']
      have e1 : made + 1 + k = made + (k + 1) := by omega
      have e2 : made + 1 + (k + 1) = made + (k + 1 + 1) := by omega
      have e3 : d + 1 + k = d + (k + 1) := by omega
      rw [e1, e2, e3]

/-- First-success run of the retry loop: a success on attempt `j + 1`
returns that subscription at once, after `j` failures and `j` sleeps. -/
theorem attemptLoop_first_success (subscribe : Nat → Except String PushSubscription)
    (errs : Nat → String) :
    ∀ (j r made : Nat) (le : Option String) (d : Nat) (s : PushSubscription),
      j < r →
      (∀ i, i < j → subscribe (made + i) = .error (errs (made + i))) →
      subscribe (made + j) = .ok s →
      attemptLoop subscribe r made le d =
        { outcome := .ok s, attemptsMade := made + j + 1, delays := d + j } := by
  intro j
  induction j with
  | zero =>
      intro r made le d s hj _ hsucc
      obtain ⟨r', rfl⟩ : ∃ r', r = r' + 1 := ⟨r - 1, by omega⟩
      have hs : subscribe made = .ok s := by simpa using hsucc
      simp [attemptLoop, hs]
  | succ k ih =>
      intro r made le d s hj hfail hsucc
      obtain ⟨r', rfl⟩ : ∃ r', r = r' + 1 := ⟨r - 1, by omega⟩
      have hs : subscribe made = .error (errs made) := by simpa using hfail 0 (by omega)
      have ih' := ih r' (made + 1) (some (errs made)) (d + 1) s (by omega)
        (fun i hi => by
          have := hfail (i + 1) (by omega)
          simpa [show made + (i + 1) = made + 1 + i by omega] using this)
        (by simpa [show made + (k + 1) = made + 1 + k by omega] using hsucc)
      have hr : 0 < r' := by omega
      have step : attemptLoop subscribe (r' + 1) made le d
          = attemptLoop subscribe r' (made + 1) (some (errs made)) (d + 1) := by
        conv_lhs => rw [attemptLoop]
        simp [hs, hr]
      rw [step, ih']
      have e1 : made + 1 + k + 1 = made + (k + 1) + 1 := by omega
      have e2 : d + 1 + k = d + (k + 1) := by omega
      rw [e1, e2]

/-- Claim C5: for every bound `N ≥ 1`, if the host `pushManager.subscribe`
fails on every attempt, `attemptPushSubscription` performs exactly `N`
attempts with the fixed inter-attempt delay between consecutive attempts
(`N - 1` sleeps) and throws the error of the last attempt, not a generic
one; if the host succeeds on attempt `k + 1 ≤ N`, the call returns that
subscription after exactly `k + 1` attempts and performs no further
attempts. -/
theorem attemptPushSubscription_retry_bound :
    ∀ (subscribe : Nat → Except String PushSubscription) (errs : Nat → String) (N : Nat),
      1 ≤ N →
      ((∀ i, i < N → subscribe i = .error (errs i)) →
        attemptPushSubscription subscribe N =
          { outcome := .error (errs (N - 1)), attemptsMade := N, delays := N - 1 })
      ∧ (∀ k s, k < N → (∀ i, i < k → subscribe i = .error (errs i)) →
          subscribe k = .ok s →
          attemptPushSubscription subscribe N =
            { outcome := .ok s, attemptsMade := k + 1, delays := k }) := by
  intro subscribe errs N hN
  constructor
  · intro hfail
    obtain ⟨r, rfl⟩ : ∃ r, N = r + 1 := ⟨N - 1, by omega⟩
    have := attemptLoop_all_fail subscribe errs r 0 none 0
      (fun i hi => by simpa using hfail i (by omega))
    simpa [attemptPushSubscription] using this
  · intro k s hk hfail hsucc
    have := attemptLoop_first_success subscribe errs k N 0 none 0 s hk
      (fun i hi => by simpa using hfail i (by omega)) (by simpa using hsucc)
    simpa [attemptPushSubscription] using this

/-- Claim C5, witness: a host failing all three default attempts causes
exactly three attempts, two sleeps, and the last error surfaced. -/
theorem attemptPushSubscription_retry_bound_witness :
    attemptPushSubscription (fun _ => .error "push service error") 3 =
      { outcome := .error "push service error", attemptsMade := 3, delays := 2 } :=
  (attemptPushSubscription_retry_bound (fun _ => .error "push service error")
    (fun _ => "push service error") 3 (by omega)).1 (fun _ _ => rfl)

/-- Claim C6: calling `subscribeToPushNotifications` twice in sequence
without an intervening unsubscribe returns the same subscription both times
(hence the same endpoint) and issues no second host-level
`pushManager.subscribe` call: whatever subscription the first call ended
with is found by the `getSubscription` check of the second call and returned
unchanged, with zero subscribe calls. -/
theorem subscribeToPushNotifications_idempotent :
    ∀ (env : PushHostEnv) (st : Option PushSubscription) (email : String) (s : PushSubscription),
      env.hasServiceWorker = true → env.hasPushManager = true →
      env.hasNotificationApi = true → env.permissionPrompt = Except.ok Permission.granted →
      env.swReadyOk = true → env.pushManagerAvailable = true →
      env.getSubscriptionFails = false →
      (subscribeToPushNotifications env st email).outcome = Except.ok s →
      (subscribeToPushNotifications env (subscribeToPushNotifications env st email).hostSub email).outcome
          = Except.ok s
      ∧ (subscribeToPushNotifications env (subscribeToPushNotifications env st email).hostSub email).subscribeCalls
          = 0 := by
  intro env st email s h1 h2 h3 h4 h5 h6 h7 hres
  obtain ⟨f1, f2, f3, f4, f5, f6, f7, f8, f9, f10, f11, f12⟩ := env
  dsimp only at h1 h2 h3 h4 h5 h6 h7
  subst h1; subst h2; subst h3; subst h4; subst h5; subst h6; subst h7
  have hhost : (subscribeToPushNotifications
      ⟨true, true, true, Except.ok Permission.granted, true, true, false, f8, f9, f10, f11, f12⟩
      st email).hostSub = some s := by
    cases st with
    | some s2 =>
        simp_all [subscribeToPushNotifications, requestNotificationPermission]
    | none =>
        cases f8 with
        | none =>
            simp [subscribeToPushNotifications, requestNotificationPermission] at hres
            rw [apply_ite SubscribeResult.outcome] at hres
            rcases ite_eq_iff.mp hres with ⟨_, h⟩ | ⟨_, h⟩ <;> simp at h
        | some key =>
            cases f9 with
            | false =>
                simp [subscribeToPushNotifications, requestNotificationPermission] at hres
                rw [apply_ite SubscribeResult.outcome] at hres
                rcases ite_eq_iff.mp hres with ⟨_, h⟩ | ⟨_, h⟩ <;> simp at h
            | true =>
                cases hso : f10 with
                | error e =>
                    simp [subscribeToPushNotifications, requestNotificationPermission, hso] at hres
                    rw [apply_ite SubscribeResult.outcome] at hres
                    rcases ite_eq_iff.mp hres with ⟨_, h⟩ | ⟨_, h⟩ <;> simp at h
                | ok s2 =>
                    simp_all [subscribeToPushNotifications, requestNotificationPermission]
  rw [hhost]
  simp [subscribeToPushNotifications, requestNotificationPermission]

/-- Claim C6, witness: after a first call that freshly subscribes, the
second call returns the same subscription with zero host subscribe calls. -/
theorem subscribeToPushNotifications_idempotent_witness :
    (subscribeToPushNotifications
        ⟨true, true, true, Except.ok Permission.granted, true, true, false, some "key", true,
          Except.ok ⟨"https://push.example/ep1", "p256dh-key", "auth-key"⟩, false, true⟩
        (subscribeToPushNotifications
          ⟨true, true, true, Except.ok Permission.granted, true, true, false, some "key", true,
            Except.ok ⟨"https://push.example/ep1", "p256dh-key", "auth-key"⟩, false, true⟩
          none "user@example.com").hostSub
        "user@example.com").outcome
      = Except.ok ⟨"https://push.example/ep1", "p256dh-key", "auth-key"⟩
    ∧ (subscribeToPushNotifications
        ⟨true, true, true, Except.ok Permission.granted, true, true, false, some "key", true,
          Except.ok ⟨"https://push.example/ep1", "p256dh-key", "auth-key"⟩, false, true⟩
        (subscribeToPushNotifications
          ⟨true, true, true, Except.ok Permission.granted, true, true, false, some "key", true,
            Except.ok ⟨"https://push.example/ep1", "p256dh-key", "auth-key"⟩, false, true⟩
          none "user@example.com").hostSub
        "user@example.com").subscribeCalls = 0 :=
  subscribeToPushNotifications_idempotent
    ⟨true, true, true, Except.ok Permission.granted, true, true, false, some "key", true,
      Except.ok ⟨"https://push.example/ep1", "p256dh-key", "auth-key"⟩, false, true⟩
    none "user@example.com" ⟨"https://push.example/ep1", "p256dh-key", "auth-key"⟩
    rfl rfl rfl rfl rfl rfl rfl rfl

/-- Claim C7: when the host-level subscribe succeeds but the POST of the
subscription to the server fails, `subscribeToPushNotifications` still
returns the locally created subscription: the outcome is the subscription
itself while the server-sync flag records the unsynchronized state — the
failure is swallowed by the catch around the POST block, never escalated. -/
theorem subscribeToPushNotifications_returns_local_on_post_failure :
    ∀ (env : PushHostEnv) (email : String) (k : String) (s : PushSubscription),
      env.hasServiceWorker = true → env.hasPushManager = true →
      env.hasNotificationApi = true → env.permissionPrompt = Except.ok Permission.granted →
      env.swReadyOk = true → env.pushManagerAvailable = true →
      env.getSubscriptionFails = false →
      env.vapidKeyResponse = some k → env.vapidConvertOk = true →
      env.subscribeOutcome = Except.ok s → env.serverPostOk = false →
      (subscribeToPushNotifications env none email).outcome = Except.ok s
      ∧ (subscribeToPushNotifications env none email).hostSub = some s
      ∧ (subscribeToPushNotifications env none email).serverSynced = false := by
  intro env email k s h1 h2 h3 h4 h5 h6 h7 h8 h9 h10 h11
  obtain ⟨f1, f2, f3, f4, f5, f6, f7, f8, f9, f10, f11, f12⟩ := env
  dsimp only at h1 h2 h3 h4 h5 h6 h7 h8 h9 h10 h11
  subst h1; subst h2; subst h3; subst h4; subst h5; subst h6; subst h7
  subst h8; subst h9; subst h10; subst h11
  simp [subscribeToPushNotifications, requestNotificationPermission]

/-- Claim C7, witness: concrete run with a failing server POST still yields
the local subscription. -/
theorem subscribeToPushNotifications_returns_local_on_post_failure_witness :
    (subscribeToPushNotifications
        ⟨true, true, true, Except.ok Permission.granted, true, true, false, some "key", true,
          Except.ok ⟨"https://push.example/ep2", "p256dh-key", "auth-key"⟩, false, false⟩
        none "user@example.com").outcome
      = Except.ok ⟨"https://push.example/ep2", "p256dh-key", "auth-key"⟩ :=
  (subscribeToPushNotifications_returns_local_on_post_failure
    ⟨true, true, true, Except.ok Permission.granted, true, true, false, some "key", true,
      Except.ok ⟨"https://push.example/ep2", "p256dh-key", "auth-key"⟩, false, false⟩
    "user@example.com" "key" ⟨"https://push.example/ep2", "p256dh-key", "auth-key"⟩
    rfl rfl rfl rfl rfl rfl rfl rfl rfl rfl rfl).1

/-- The batch write of install leaves the list of cache-generation names
unchanged. -/
theorem storePutAll_map_fst (s : CacheStorage) (n : String)
    (es : List (String × SWResponse)) :
    (storePutAll s n es).map Prod.fst = s.map Prod.fst := by
  induction s with
  | nil => rfl
  | cons hd tl ih =>
      simp only [storePutAll, List.map_cons] at ih ⊢
      by_cases h : hd.1 = n <;> simp [h, ih]

/-- Install does not change which cache generations exist beyond opening
the current one. -/
theorem installHandler_map_fst (store : CacheStorage)
    (fetchFn : String → Except Unit SWResponse) :
    (installHandler store fetchFn).1.map Prod.fst
      = (cachesOpen store CACHE_NAME).map Prod.fst := by
  unfold installHandler
  cases addAllFetch fetchFn CACHE_URLS <;> simp [storePutAll_map_fst]

/-- Activation filters the generation list by name. -/
theorem activateHandler_map_fst (s : CacheStorage) :
    (activateHandler s).map Prod.fst
      = (s.map Prod.fst).filter (fun x => x = CACHE_NAME) := by
  induction s with
  | nil => rfl
  | cons hd tl ih =>
      by_cases h : hd.1 = CACHE_NAME <;> simp [activateHandler, h, ih] <;>
        simpa [activateHandler] using ih

/-- Opening the current cache puts its name into the store. -/
theorem cachesOpen_mem_names (s : CacheStorage) (n : String) :
    n ∈ (cachesOpen s n).map Prod.fst := by
  by_cases h : s.any (fun c => c.1 = n)
  · obtain ⟨c, hc, hcn⟩ := List.any_eq_true.mp h
    simp only [cachesOpen, h, if_true]
    exact List.mem_map.mpr ⟨c, hc, of_decide_eq_true hcn⟩
  · simp [cachesOpen, h]

/-- Opening a cache preserves the uniqueness of generation names. -/
theorem cachesOpen_nodup_names (s : CacheStorage) (n : String)
    (hn : (s.map Prod.fst).Nodup) : ((cachesOpen s n).map Prod.fst).Nodup := by
  by_cases h : s.any (fun c => c.1 = n)
  · simpa [cachesOpen, h] using hn
  · have hnot : n ∉ s.map Prod.fst := by
      intro hmem
      obtain ⟨c, hc, hcn⟩ := List.mem_map.mp hmem
      have : s.any (fun c => c.1 = n) = true :=
        List.any_eq_true.mpr ⟨c, hc, decide_eq_true hcn⟩
      exact absurd this (by simpa using h)
    simp [cachesOpen, h, List.nodup_append, hn, hnot]

/-- Filtering a duplicate-free list down to one present element yields
exactly that element. -/
theorem filter_eq_singleton_of_nodup (l : List String) (a : String)
    (hn : l.Nodup) (ha : a ∈ l) : l.filter (fun x => x = a) = [a] := by
  induction l with
  | nil => cases ha
  | cons hd tl ih =>
      rcases List.mem_cons.mp ha with rfl | hmem
      · have hnot : a ∉ tl := (List.nodup_cons.mp hn).1
        have htl : tl.filter (fun x => x = a) = [] := by
          apply List.filter_eq_nil_iff.mpr
          intro x hx
          simp only [decide_eq_true_eq]
          rintro rfl
          exact hnot hx
        simp [List.filter, htl]
      · have hne : hd ≠ a := by
          rintro rfl
          exact (List.nodup_cons.mp hn).1 hmem
        simp [List.filter, hne, ih (List.nodup_cons.mp hn).2 hmem]

/-- Claim C8: after a run of the install handler followed by the activate
handler, exactly one cache generation — the current build-time version tag
`CACHE_NAME` — is present: every generation with a different name has been
deleted, so all entries of previous generations are unreachable. -/
theorem activate_leaves_exactly_current_generation :
    ∀ (store : CacheStorage) (fetchFn : String → Except Unit SWResponse),
      (store.map Prod.fst).Nodup →
      (activateHandler (installHandler store fetchFn).1).map Prod.fst = [CACHE_NAME]
      ∧ ∀ c ∈ activateHandler (installHandler store fetchFn).1, c.1 = CACHE_NAME := by
  intro store fetchFn hn
  constructor
  · rw [activateHandler_map_fst, installHandler_map_fst]
    exact filter_eq_singleton_of_nodup _ _
      (cachesOpen_nodup_names store CACHE_NAME hn)
      (cachesOpen_mem_names store CACHE_NAME)
  · intro c hc
    have := (List.mem_filter.mp hc).2
    simpa using this

/-- Claim C8, witness: activating over a store holding a stale generation
leaves exactly the current one. -/
theorem activate_leaves_exactly_current_generation_witness :
    (activateHandler (installHandler [("calendar-app-v0", [])]
        (fun _ => .ok ⟨200, "basic", "shell"⟩)).1).map Prod.fst = [CACHE_NAME] :=
  (activate_leaves_exactly_current_generation [("calendar-app-v0", [])]
    (fun _ => .ok ⟨200, "basic", "shell"⟩) (by decide)).1

/-- A failed fetch of any manifest asset fails the whole `addAll` batch. -/
theorem addAllFetch_error_of_mem :
    ∀ (urls : List String) (fetchFn : String → Except Unit SWResponse) (u : String),
      u ∈ urls → fetchFn u = .error () → addAllFetch fetchFn urls = .error () := by
  intro urls
  induction urls with
  | nil => intro _ u hu _; cases hu
  | cons hd tl ih =>
      intro fetchFn u hu hf
      rcases List.mem_cons.mp hu with rfl | hmem
      · simp [addAllFetch, hf]
      · cases hfd : fetchFn hd with
        | error e => simp [addAllFetch, hfd]
        | ok r => simp [addAllFetch, hfd, ih fetchFn u hmem hf]

/-- Claim C9, counterexample: with the fetch of the manifest asset `"/"`
failing, the install transition still completes (`waitUntil` fulfilled)
because the final catch of the handler swallows the `addAll` error — the claim
that a fetch failure fails the whole transition is false on the code.  The
named cache is created but holds no entries (no partial commit). -/
theorem installHandler_failure_still_completes_cex :
    ("/" ∈ CACHE_URLS)
    ∧ ((fun u => if u = "/" then (Except.error () : Except Unit SWResponse)
          else .ok ⟨200, "basic", "shell"⟩) "/" = .error ())
    ∧ (installHandler []
        (fun u => if u = "/" then .error () else .ok ⟨200, "basic", "shell"⟩)).2 = true
    ∧ (installHandler []
        (fun u => if u = "/" then .error () else .ok ⟨200, "basic", "shell"⟩)).1
        = [(CACHE_NAME, [])] :=
  ⟨by decide, by simp, by decide, by decide⟩

/-- Claim C9, amended: the install handler stores every manifest asset only
when all fetches succeed; when the fetch of any manifest asset fails, the
batch commits nothing (the versioned cache is opened but left without the
new entries) — yet the error is caught and logged, so the install
transition completes successfully either way and remains retryable only in
the sense that a later install may run again. -/
theorem installHandler_completes_despite_fetch_failure :
    ∀ (store : CacheStorage) (fetchFn : String → Except Unit SWResponse),
      (installHandler store fetchFn).2 = true
      ∧ ((∃ u ∈ CACHE_URLS, fetchFn u = .error ()) →
          (installHandler store fetchFn).1 = cachesOpen store CACHE_NAME)
      ∧ (∀ entries, addAllFetch fetchFn CACHE_URLS = .ok entries →
          (installHandler store fetchFn).1
            = storePutAll (cachesOpen store CACHE_NAME) CACHE_NAME entries) := by
  intro store fetchFn
  refine ⟨?_, ?_, ?_⟩
  · unfold installHandler
    cases addAllFetch fetchFn CACHE_URLS <;> rfl
  · rintro ⟨u, hu, hf⟩
    have herr := addAllFetch_error_of_mem CACHE_URLS fetchFn u hu hf
    simp [installHandler, herr]
  · intro entries hes
    simp [installHandler, hes]

/-- Claim C9, witness for the amended theorem at a concrete failing
fetch. -/
theorem installHandler_completes_despite_fetch_failure_witness :
    (installHandler [] (fun u => if u = "/" then .error () else .ok ⟨200, "basic", "shell"⟩)).1
      = cachesOpen [] CACHE_NAME :=
  (installHandler_completes_despite_fetch_failure []
    (fun u => if u = "/" then .error () else .ok ⟨200, "basic", "shell"⟩)).2.1
    ⟨"/", by decide, by simp⟩

/-- Claim C3, counterexample: in the remote-API branch, a network response
that resolves with a non-200 status is not returned as-is — the handler
answers from the cache instead; and on a network rejection the handler
returns the offline fallback page directly, never consulting the matching
cached entry.  Both halves of the claim fail at these concrete requests. -/
theorem fetchHandler_api_branch_cex :
    (fetchHandler ⟨"GET", "/api/events"⟩
        ⟨.resolved ⟨500, "basic", "server-error"⟩, some ⟨200, "basic", "cached-copy"⟩,
          some ⟨200, "basic", "offline-page"⟩⟩).1
      = .respond (some ⟨200, "basic", "cached-copy"⟩)
    ∧ (fetchHandler ⟨"GET", "/api/events"⟩
        ⟨.resolved ⟨500, "basic", "server-error"⟩, some ⟨200, "basic", "cached-copy"⟩,
          some ⟨200, "basic", "offline-page"⟩⟩).1
      ≠ .respond (some ⟨500, "basic", "server-error"⟩)
    ∧ (fetchHandler ⟨"GET", "/api/events"⟩
        ⟨.rejected, some ⟨200, "basic", "cached-copy"⟩,
          some ⟨200, "basic", "offline-page"⟩⟩).1
      = .respond (some ⟨200, "basic", "offline-page"⟩)
    ∧ (fetchHandler ⟨"GET", "/api/events"⟩
        ⟨.rejected, some ⟨200, "basic", "cached-copy"⟩,
          some ⟨200, "basic", "offline-page"⟩⟩).1
      ≠ .respond (some ⟨200, "basic", "cached-copy"⟩) := by
  decide

/-- Claim C3, amended: for an intercepted GET whose URL matches the
remote-API marker, the handler returns the live network response only when
it resolves with status 200; a resolved response with any other status is
answered with the result of matching the cache (the cached entry if one
exists, else nothing); a network rejection is answered with the static
offline fallback page, without consulting the cached entry for the
request. -/
theorem fetchHandler_api_branch_behavior :
    ∀ (req : SWRequest) (env : FetchEnv) (r : SWResponse),
      req.method = "GET" →
      strStartsWith req.url "chrome-extension://" = false →
      strIncludes req.url "/api/" = true →
      ((env.net = .resolved r → r.status = 200 →
          (fetchHandler req env).1 = .respond (some r))
       ∧ (env.net = .resolved r → r.status ≠ 200 →
          (fetchHandler req env).1 = .respond env.cacheMatch)
       ∧ (env.net = .rejected →
          (fetchHandler req env).1 = .respond env.offlineMatch)) := by
  intro req env r hm hch hapi
  refine ⟨?_, ?_, ?_⟩
  · intro hnet h200
    simp [fetchHandler, hm, hch, hapi, hnet, h200]
  · intro hnet h200
    simp [fetchHandler, hm, hch, hapi, hnet, h200]
  · intro hnet
    simp [fetchHandler, hm, hch, hapi, hnet]

/-- Claim C3, witness for the amended theorem: a non-200 API response is
answered from the cache. -/
theorem fetchHandler_api_branch_behavior_witness :
    (fetchHandler ⟨"GET", "/api/x"⟩
        ⟨.resolved ⟨500, "basic", "e"⟩, some ⟨200, "basic", "c"⟩,
          some ⟨200, "basic", "o"⟩⟩).1
      = .respond (some ⟨200, "basic", "c"⟩) :=
  (fetchHandler_api_branch_behavior ⟨"GET", "/api/x"⟩
    ⟨.resolved ⟨500, "basic", "e"⟩, some ⟨200, "basic", "c"⟩, some ⟨200, "basic", "o"⟩⟩
    ⟨500, "basic", "e"⟩ rfl (by decide) (by decide)).2.1 rfl (by decide)

end MonadPulse
